import Mathlib

/-!
Verification of the flow-oriented protocol-identification engine
(`libpcap-analyzer/src/plugins/rusticata.rs`) and the capture decoding engine
(`libpcap-tools/src/data_engine.rs`) of the pcap-analyzer repository.

The Rust code is shallowly embedded: `u32`/`u8` arithmetic becomes `Nat`
arithmetic with explicit masks where overflow matters, `HashMap`/`HashSet`
become functions `Nat → Option _` / `Nat → Bool`, and calls into the external
`rusticata` and `pcap_parser` crates (probe functions, parser `parse`,
`build_ts`, `get_packetdata`) become oracle inputs supplied per call.
-/

namespace PcapAnalyzer

/-! ## Probe cascade and parser registry (rusticata.rs) -/

/-- Result of an external layer-4 probe function (`rusticata::ProbeResult`). -/
inductive ProbeResult where
  | certain
  | reverse
  | unsure
  | notForUs
  | fatal
deriving DecidableEq

/-- Result of a parser `parse` call; `fail` is `R_STATUS_FAIL`. -/
inductive ParseStatus where
  | ok
  | fail
deriving DecidableEq

/-- A probe definition `(filter, name)`; the Rust `ProbeDef` also carries the
probe function pointer, whose outcome is supplied by an oracle per call. -/
abbrev ProbeDef := Nat × String

/-- `const PROBE_TCP: u32 = 0x0600_0000` (rusticata.rs line 8). -/
def PROBE_TCP : Nat := 0x06000000

/-- `const PROBE_UDP: u32 = 0x1100_0000` (rusticata.rs line 9). -/
def PROBE_UDP : Nat := 0x11000000

/-- Transport protocol of a parser/probe. -/
inductive Transport where
  | tcp
  | udp
deriving DecidableEq

/-- One `add_parser!` line of `Rusticata::pre_process` (rusticata.rs lines
83-99): the macro arm used (`tcp` or `udp`), the registered name, the
priority ordinal (`TcpProbeOrder`/`UdpProbeOrder` value), and the transport
of the builder type named on that line (e.g. `OpenVPNTCPBuilder` is a TCP
parser builder; this last field comes from the rusticata crate's builder
types, which the spec describes but whose sources are external). -/
structure ParserSpec where
  arm : Transport
  name : String
  pat : Nat
  builderTransport : Transport
deriving DecidableEq

/-- The fifteen `add_parser!` invocations of `pre_process`, in source order.
Ordinals: `TcpProbeOrder` = Dns 0, Tls 1, Ssh 2, Kerberos 3, OpenVpn 4;
`UdpProbeOrder` = Dhcp 0, Dns 1, Ikev2 2, Ikev2Natt 3, Kerberos 4, Ntp 5,
OpenVpn 6, Radius 7, Snmpv1 8, Snmpv2c 9, Snmpv3 10 (`radius` is commented
out in the source). Note line 85 uses the `udp` arm for `openvpn_tcp`
although the builder is `OpenVPNTCPBuilder` with a `TcpProbeOrder` ordinal. -/
def parserSpecs : List ParserSpec :=
  [⟨Transport.tcp, "dns_tcp", 0, Transport.tcp⟩,
   ⟨Transport.tcp, "kerberos_tcp", 3, Transport.tcp⟩,
   ⟨Transport.udp, "openvpn_tcp", 4, Transport.tcp⟩,
   ⟨Transport.tcp, "ssh", 2, Transport.tcp⟩,
   ⟨Transport.tcp, "tls", 1, Transport.tcp⟩,
   ⟨Transport.udp, "dhcp", 0, Transport.udp⟩,
   ⟨Transport.udp, "dns_udp", 1, Transport.udp⟩,
   ⟨Transport.udp, "ikev2", 2, Transport.udp⟩,
   ⟨Transport.udp, "ikev2_natt", 3, Transport.udp⟩,
   ⟨Transport.udp, "kerberos_udp", 4, Transport.udp⟩,
   ⟨Transport.udp, "ntp", 5, Transport.udp⟩,
   ⟨Transport.udp, "openvpn_udp", 6, Transport.udp⟩,
   ⟨Transport.udp, "snmpv1", 8, Transport.udp⟩,
   ⟨Transport.udp, "snmpv2c", 9, Transport.udp⟩,
   ⟨Transport.udp, "snmpv3", 10, Transport.udp⟩]

/-- The filter word produced by the chosen `add_parser!` arm:
`PROBE_TCP | (pat as u32)` or `PROBE_UDP | (pat as u32)`. -/
def filterOf (s : ParserSpec) : Nat :=
  (match s.arm with
   | Transport.tcp => PROBE_TCP
   | Transport.udp => PROBE_UDP) ||| s.pat

/-- Transport of the builder registered under a given name, when present. -/
def builderTransportOf (n : String) : Option Transport :=
  (parserSpecs.find? (fun s => s.name == n)).map (·.builderTransport)

/-- Insertion into a list sorted ascending by filter word. -/
def insertSorted (x : ProbeDef) : List ProbeDef → List ProbeDef
  | [] => [x]
  | y :: ys => if x.1 ≤ y.1 then x :: y :: ys else y :: insertSorted x ys

/-- Sorting ascending by the full filter word, modelling
`probes_l4.sort_unstable_by(|a, b| a.0.cmp(&b.0))` (rusticata.rs line 101).
`sort_unstable_by` leaves the relative order of equal keys unspecified;
insertion sort fixes one such order. -/
def sortByFilter : List ProbeDef → List ProbeDef
  | [] => []
  | x :: xs => insertSorted x (sortByFilter xs)

/-- The probe table built by `pre_process`: each `add_parser!` line pushes
`(filter, name)` when the external builder exposes a layer-4 probe
(`get_l4_probe()` returns `Some`, modelled by the oracle `hasProbe`), then
the table is sorted by filter word. -/
def preProcessProbes (hasProbe : String → Bool) : List ProbeDef :=
  sortByFilter ((parserSpecs.filter (fun s => hasProbe s.name)).map
    (fun s => (filterOf s, s.name)))

/-- The probe table when every registered builder exposes a probe. -/
def rusticataProbesFull : List ProbeDef := preProcessProbes (fun _ => true)

/-- The names inserted into `builder_map` by `pre_process` (both macro arms
insert the builder unconditionally). -/
def rusticataBuilderNames : List String := parserSpecs.map (·.name)

/-! ### Flow state -/

/-- Point update of a finite map modelled as a function. -/
def mapInsert (m : Nat → Option α) (k : Nat) (v : α) : Nat → Option α :=
  fun x => if x = k then some v else m x

/-- Point removal of a finite map modelled as a function. -/
def mapRemove (m : Nat → Option α) (k : Nat) : Nat → Option α :=
  fun x => if x = k then none else m x

/-- Insertion into a set modelled as a Boolean function. -/
def setInsert (s : Nat → Bool) (k : Nat) : Nat → Bool :=
  fun x => if x = k then true else s x

/-- Removal from a set modelled as a Boolean function. -/
def setRemove (s : Nat → Bool) (k : Nat) : Nat → Bool :=
  fun x => if x = k then false else s x

/-- The mutable state of the `Rusticata` plugin (rusticata.rs lines 41-49).
Flow IDs are `u64`; the maps are keyed by flow ID. A bound parser is
identified by the protocol name whose builder built it. -/
structure RState where
  probes_l4 : List ProbeDef
  builder_names : List String
  flow_probes : Nat → Option (List ProbeDef)
  flow_parsers : Nat → Option String
  flow_bypass : Nat → Bool

/-- The plugin state right after `pre_process`: table and builder names set,
all per-flow maps empty. -/
def initState (tbl : List ProbeDef) (bn : List String) : RState :=
  { probes_l4 := tbl
    builder_names := bn
    flow_probes := fun _ => none
    flow_parsers := fun _ => none
    flow_bypass := fun _ => false }

/-! ### The probe cascade (`Rusticata::probe`, rusticata.rs lines 192-231) -/

/-- The probe list selected for a flow: stored candidate list if present,
otherwise the full table (rusticata.rs lines 195-198). -/
def selectedProbes (st : RState) (fid : Nat) : List ProbeDef :=
  match st.flow_probes fid with
  | some list => list
  | none => st.probes_l4

/-- `let filter = (l4_info.l4_proto as u32) << 24` (rusticata.rs line 200);
`l4_proto` is a `u8`, hence the mask. -/
def transportFilter (l4_proto : Nat) : Nat := (l4_proto % 256) <<< 24

/-- The probes the iteration ranges over:
`probes.iter().filter(|(id, _)| id & filter != 0)` (rusticata.rs line 201). -/
def invokableProbes (st : RState) (fid l4_proto : Nat) : List ProbeDef :=
  (selectedProbes st fid).filter (fun pd => (pd.1 &&& transportFilter l4_proto) != 0)

/-- The iteration of `Rusticata::probe` over the filtered probe list, with the
probe outcomes supplied by `env`. Returns the matched name (first probe
answering `Certain`/`Reverse`), the accumulated Unsure list, and the names of
the probes actually invoked (the iteration stops at the first match). -/
def probeLoop (env : String → ProbeResult) :
    List ProbeDef → Option String × List ProbeDef × List String
  | [] => (none, [], [])
  | pd :: rest =>
    match env pd.2 with
    | ProbeResult.certain => (some pd.2, [], [pd.2])
    | ProbeResult.reverse => (some pd.2, [], [pd.2])
    | ProbeResult.unsure =>
      let r := probeLoop env rest
      (r.1, pd :: r.2.1, pd.2 :: r.2.2)
    | ProbeResult.notForUs =>
      let r := probeLoop env rest
      (r.1, r.2.1, pd.2 :: r.2.2)
    | ProbeResult.fatal =>
      let r := probeLoop env rest
      (r.1, r.2.1, pd.2 :: r.2.2)

/-- `Rusticata::probe` (rusticata.rs lines 192-231). Returns the recognized
protocol name (if any), the updated state, and the names of the invoked
probes. On a match the flow's candidate list is dropped; with no match the
flow is bypassed when no probe was unsure, and otherwise the unsure probes
become the flow's candidate list. -/
def probe (st : RState) (env : String → ProbeResult) (fid l4_proto : Nat) :
    Option String × RState × List String :=
  match probeLoop env (invokableProbes st fid l4_proto) with
  | (some name, _, invoked) =>
    (some name, { st with flow_probes := mapRemove st.flow_probes fid }, invoked)
  | (none, unsure, invoked) =>
    if unsure.isEmpty then
      (none, { st with flow_probes := mapRemove st.flow_probes fid
                       flow_bypass := setInsert st.flow_bypass fid }, invoked)
    else
      (none, { st with flow_probes := mapInsert st.flow_probes fid unsure }, invoked)

/-! ### `handle_layer_transport` (rusticata.rs lines 107-174) -/

/-- Instrumentation of one `handle_layer_transport` call: whether the probe
cascade ran, which probes were invoked, and which bound parser (by protocol
name) had `parse` called on it. -/
structure Trace where
  probed : Bool
  probesInvoked : List String
  parseCalled : Option String
deriving DecidableEq

/-- The trace of a call that returns before probing or parsing. -/
def emptyTrace : Trace := ⟨false, [], none⟩

/-- The fields of `PacketInfo` read by `handle_layer_transport`: the flow
(just its ID), the layer-4 payload, the layer-4 protocol (`u8`), and the
direction flag. -/
structure PInfo where
  flow : Option Nat
  l4_payload : Option (List Nat)
  l4_type : Nat
  to_server : Bool

/-- Oracle for the external calls made during one `handle_layer_transport`
call: the outcome of each probe on this packet's payload, and the outcome of
`parse` on this payload for the parser identified by a protocol name. -/
structure Env where
  probeRes : String → ProbeResult
  parseRes : String → ParseStatus

/-- The plugin result; `handle_layer_transport` only ever produces `None`. -/
inductive PluginResult where
  | None
deriving DecidableEq

/-- `Rusticata::handle_layer_transport` (rusticata.rs lines 107-174):
no flow or a bypassed flow or an absent/empty payload is a no-op; otherwise
an already-bound parser gets the payload (and is dropped on failure), and an
unbound flow goes through the probe cascade, binding and immediately running
the recognized parser (bypassing the flow when the recognized name has no
builder). -/
def handle_layer_transport (st : RState) (env : Env) (pinfo : PInfo) :
    RState × PluginResult × Trace :=
  match pinfo.flow with
  | none => (st, PluginResult.None, emptyTrace)
  | some fid =>
    if st.flow_bypass fid then (st, PluginResult.None, emptyTrace)
    else
      match pinfo.l4_payload with
      | none => (st, PluginResult.None, emptyTrace)
      | some d =>
        if d.isEmpty then (st, PluginResult.None, emptyTrace)
        else
          match st.flow_parsers fid with
          | some pname =>
            if env.parseRes pname = ParseStatus.fail then
              ({ st with flow_parsers := mapRemove st.flow_parsers fid },
               PluginResult.None, ⟨false, [], some pname⟩)
            else (st, PluginResult.None, ⟨false, [], some pname⟩)
          | none =>
            match probe st env.probeRes fid pinfo.l4_type with
            | (some pname, st1, invoked) =>
              if pname ∈ st1.builder_names then
                let st2 := { st1 with
                  flow_parsers := mapInsert st1.flow_parsers fid pname }
                if env.parseRes pname = ParseStatus.fail then
                  ({ st2 with flow_parsers := mapRemove st2.flow_parsers fid },
                   PluginResult.None, ⟨true, invoked, some pname⟩)
                else (st2, PluginResult.None, ⟨true, invoked, some pname⟩)
              else
                ({ st1 with flow_bypass := setInsert st1.flow_bypass fid },
                 PluginResult.None, ⟨true, invoked, none⟩)
            | (none, st1, invoked) =>
              (st1, PluginResult.None, ⟨true, invoked, none⟩)

/-- `Rusticata::flow_destroyed` (rusticata.rs lines 176-179): removes the
flow from `flow_probes` and `flow_bypass` (and from nothing else). -/
def flow_destroyed (st : RState) (fid : Nat) : RState :=
  { st with flow_probes := mapRemove st.flow_probes fid
            flow_bypass := setRemove st.flow_bypass fid }

/-- States reachable from the post-`pre_process` state by any interleaving of
`handle_layer_transport` and `flow_destroyed` calls. -/
inductive Reachable (tbl : List ProbeDef) (bn : List String) : RState → Prop where
  | init : Reachable tbl bn (initState tbl bn)
  | handle (s : RState) (env : Env) (pinfo : PInfo) :
      Reachable tbl bn s → Reachable tbl bn (handle_layer_transport s env pinfo).1
  | destroyed (s : RState) (fid : Nat) :
      Reachable tbl bn s → Reachable tbl bn (flow_destroyed s fid)

/-- Pairwise disjointness of the three per-flow views: a flow with a bound
parser is in neither `flow_probes` nor `flow_bypass`, and a flow with a
candidate list is not in `flow_bypass`. -/
def DisjointViews (st : RState) : Prop :=
  ∀ fid, ((st.flow_parsers fid).isSome →
            st.flow_probes fid = none ∧ st.flow_bypass fid = false) ∧
         ((st.flow_probes fid).isSome → st.flow_bypass fid = false)

/-- One plugin event that does not destroy flow `fid`: a
`handle_layer_transport` call for any packet, or a `flow_destroyed` call for
a different flow. -/
inductive StepAvoiding (fid : Nat) : RState → RState → Prop where
  | handle (s : RState) (env : Env) (pinfo : PInfo) :
      StepAvoiding fid s (handle_layer_transport s env pinfo).1
  | destroyed (s : RState) (g : Nat) :
      g ≠ fid → StepAvoiding fid s (flow_destroyed s g)

/-- A concrete reachable state in which flow 1 is bypassed: one packet of
flow 1 was handled and every probe answered `NotForUs`. -/
def bypassedStateExample : RState :=
  (handle_layer_transport (initState [] [])
    ⟨fun _ => ProbeResult.notForUs, fun _ => ParseStatus.ok⟩
    ⟨some 1, some [1], 6, true⟩).1

/-- A packet of flow 1 with a one-byte TCP payload. -/
def pinfoFlow1 : PInfo := ⟨some 1, some [1], 6, true⟩

/-- A concrete reachable state in which parser `tls` is bound to flow 1:
one packet of flow 1 was handled from a table with a single TCP probe
`tls` that answered `Certain`. -/
def boundStateExample : RState :=
  (handle_layer_transport (initState [(PROBE_TCP, "tls")] ["tls"])
    ⟨fun _ => ProbeResult.certain, fun _ => ParseStatus.ok⟩ pinfoFlow1).1

/-- A table with two UDP probes, used to exercise the Unsure path. -/
def probeWitnessState : RState :=
  initState [(PROBE_UDP, "dhcp"), (PROBE_UDP + 1, "ntp")] []

/-- Probe outcomes where only `dhcp` is unsure. -/
def probeWitnessEnv : String → ProbeResult :=
  fun n => if n = "dhcp" then ProbeResult.unsure else ProbeResult.notForUs

/-- An oracle whose probes all answer `NotForUs` and whose parsers fail. -/
def envParseFail : Env :=
  ⟨fun _ => ProbeResult.notForUs, fun _ => ParseStatus.fail⟩

/-! ## Capture decoding engine (data_engine.rs) -/

/-- `InterfaceInfo` as used by `PcapDataAnalyzer::handle_block`. -/
structure InterfaceInfo where
  link_type : Nat
  if_tsoffset : Nat
  if_tsresol : Nat
  snaplen : Nat
deriving DecidableEq

/-- A timestamp `(secs, micros)`; the `duration.rs` module is not among the
provided sources, so only the operations `handle_block` needs are modelled. -/
structure Duration where
  secs : Nat
  micros : Nat
deriving DecidableEq

/-- `MICROS_PER_SEC` from the (absent) `duration.rs` module; the spec fixes
it at `1e6`. -/
def MICROS_PER_SEC : Nat := 1000000

/-- Modelled from the spec: `Duration` subtraction used for
`rel_ts = packet.ts − first_packet_ts` (saturating on underflow); the
`duration.rs` module is not among the provided sources. -/
def durSub (a b : Duration) : Duration :=
  let ta := a.secs * MICROS_PER_SEC + a.micros
  let tb := b.secs * MICROS_PER_SEC + b.micros
  ⟨(ta - tb) / MICROS_PER_SEC, (ta - tb) % MICROS_PER_SEC⟩

/-- The parse context maintained across blocks (interfaces, endianness,
current index, first/relative timestamps). -/
structure ParseCtx where
  interfaces : List InterfaceInfo
  bigendian : Bool
  pcap_index : Nat
  first_packet_ts : Duration
  rel_ts : Duration
deriving DecidableEq

/-- A decoded packet as built by `handle_block`; the payload is extracted by
the external `get_packetdata`, so only its success is modelled (in the block
inputs below). -/
structure Packet where
  interface : Nat
  ts_secs : Nat
  ts_micros : Nat
  origlen : Nat
  caplen : Nat
  pcap_index : Nat
deriving DecidableEq

/-- How a `handle_block` call can fail: a failed `assert!` or an integer
division by zero are Rust panics; `generic` is `Error::Generic`. -/
inductive RunError where
  | assertionFailed
  | divByZero
  | generic (msg : String)
deriving DecidableEq

/-- One capture block, as consumed by `handle_block`. For packet blocks the
fields are those the function reads. For an enhanced packet, `ts_sec`,
`ts_frac` and `unit` are the results of the external
`pcap_parser::build_ts(ts_high, ts_low, if_tsoffset, if_tsresol)` call
(`ts_sec`/`ts_frac` are `u32`, `unit` is `u64` ticks per second), and
`data_ok` is whether the external `get_packetdata` succeeds. -/
inductive PcapBlock where
  | sectionHeader (bigendian : Bool)
  | interfaceDescription (ifInfo : InterfaceInfo)
  | enhancedPacket (if_id ts_sec ts_frac unit caplen origlen : Nat) (data_ok : Bool)
  | simplePacket (block_len1 origlen : Nat) (data_ok : Bool)
  | legacyHeader (network snaplen : Nat)
  | legacyPacket (ts_sec ts_usec caplen origlen : Nat) (data_ok : Bool)
  | interfaceStatistics
  | nameResolution
  | unknown

/-- The microsecond normalisation of data_engine.rs lines 109-114:
`unit as u32` (a lossy `u64 → u32` cast, modelled as `% 2^32`), then
`ts_frac / (unit / MICROS_PER_SEC)` unless `unit` is already microseconds.
A Rust integer division by zero panics, modelled as `none`. -/
def normalize_ts_usec (ts_frac unit64 : Nat) : Option Nat :=
  let unit := unit64 % 2 ^ 32
  if unit ≠ MICROS_PER_SEC then
    if unit / MICROS_PER_SEC = 0 then none
    else some (ts_frac / (unit / MICROS_PER_SEC))
  else some ts_frac

/-- The tail of `handle_block` after a packet is built (data_engine.rs lines
182-198): latch `first_packet_ts` on the first packet and recompute `rel_ts`.
The forwarding to the wrapped analyzer's `handle_packet` is external and not
modelled. -/
def emitPacket (ctx : ParseCtx) (p : Packet) :
    Except RunError (ParseCtx × Option Packet) :=
  let ctx := if ctx.first_packet_ts = ⟨0, 0⟩ then
      { ctx with first_packet_ts := ⟨p.ts_secs, p.ts_micros⟩ }
    else ctx
  Except.ok ({ ctx with rel_ts := durSub ⟨p.ts_secs, p.ts_micros⟩ ctx.first_packet_ts },
    some p)

/-- `PcapDataAnalyzer::handle_block` (data_engine.rs lines 81-199), per block
kind; returns the updated context and the emitted packet, if any. The
forwarded `data_analyzer.handle_block` call at the top is external (a no-op
by default) and not modelled. -/
def handle_block (ctx : ParseCtx) (block : PcapBlock) (pcap_index : Nat) :
    Except RunError (ParseCtx × Option Packet) :=
  let ctx := { ctx with pcap_index := pcap_index }
  match block with
  | PcapBlock.sectionHeader be =>
    Except.ok ({ ctx with interfaces := [], bigendian := be }, none)
  | PcapBlock.interfaceDescription ifInfo =>
    Except.ok ({ ctx with interfaces := ctx.interfaces ++ [ifInfo] }, none)
  | PcapBlock.enhancedPacket if_id ts_sec ts_frac unit caplen origlen data_ok =>
    if if_id < ctx.interfaces.length then
      match normalize_ts_usec ts_frac unit with
      | none => Except.error RunError.divByZero
      | some ts_usec =>
        if data_ok then
          emitPacket ctx
            { interface := if_id, ts_secs := ts_sec, ts_micros := ts_usec,
              origlen := origlen, caplen := caplen, pcap_index := pcap_index }
        else Except.error (RunError.generic "Parsing PacketData failed (EnhancedPacket)")
    else Except.error RunError.assertionFailed
  | PcapBlock.simplePacket _block_len1 origlen data_ok =>
    match ctx.interfaces with
    | [] => Except.error RunError.assertionFailed
    | if_info :: _ =>
      if data_ok then
        emitPacket ctx
          { interface := 0, ts_secs := 0, ts_micros := 0,
            origlen := origlen, caplen := if_info.snaplen, pcap_index := pcap_index }
      else Except.error (RunError.generic "Parsing PacketData failed (SimplePacket)")
  | PcapBlock.legacyHeader network snaplen =>
    Except.ok ({ ctx with interfaces := ctx.interfaces ++
      [{ link_type := network, if_tsoffset := 0, if_tsresol := 6, snaplen := snaplen }] },
      none)
  | PcapBlock.legacyPacket ts_sec ts_usec caplen origlen data_ok =>
    match ctx.interfaces with
    | [] => Except.error RunError.assertionFailed
    | _ :: _ =>
      if data_ok then
        emitPacket ctx
          { interface := 0, ts_secs := ts_sec, ts_micros := ts_usec,
            origlen := origlen, caplen := caplen, pcap_index := pcap_index }
      else Except.error (RunError.generic "Parsing PacketData failed (Legacy Packet)")
  | PcapBlock.interfaceStatistics => Except.ok (ctx, none)
  | PcapBlock.nameResolution => Except.ok (ctx, none)
  | PcapBlock.unknown => Except.ok (ctx, none)

/-! ### Point lemmas for the map model -/

@[simp] theorem mapInsert_same (m : Nat → Option α) (k : Nat) (v : α) :
    mapInsert m k v k = some v := by simp [mapInsert]

theorem mapInsert_other (m : Nat → Option α) (k x : Nat) (v : α) (h : x ≠ k) :
    mapInsert m k v x = m x := by simp [mapInsert, h]

@[simp] theorem mapRemove_same (m : Nat → Option α) (k : Nat) :
    mapRemove m k k = none := by simp [mapRemove]

theorem mapRemove_other (m : Nat → Option α) (k x : Nat) (h : x ≠ k) :
    mapRemove m k x = m x := by simp [mapRemove, h]

@[simp] theorem setInsert_same (s : Nat → Bool) (k : Nat) :
    setInsert s k k = true := by simp [setInsert]

theorem setInsert_other (s : Nat → Bool) (k x : Nat) (h : x ≠ k) :
    setInsert s k x = s x := by simp [setInsert, h]

@[simp] theorem setRemove_same (s : Nat → Bool) (k : Nat) :
    setRemove s k k = false := by simp [setRemove]

theorem setRemove_other (s : Nat → Bool) (k x : Nat) (h : x ≠ k) :
    setRemove s k x = s x := by simp [setRemove, h]

/-! ### Lemmas about the probe cascade -/

theorem probeLoop_invoked_mem (env : String → ProbeResult) (l : List ProbeDef) :
    ∀ n ∈ (probeLoop env l).2.2, ∃ pd ∈ l, pd.2 = n := by
  induction l with
  | nil => simp [probeLoop]
  | cons pd rest ih =>
    intro n hn
    unfold probeLoop at hn
    cases henv : env pd.2 <;> rw [henv] at hn <;> simp at hn
    case certain => exact ⟨pd, List.mem_cons_self _ _, hn.symm⟩
    case reverse => exact ⟨pd, List.mem_cons_self _ _, hn.symm⟩
    all_goals {
      rcases hn with hn | hn
      · exact ⟨pd, List.mem_cons_self _ _, hn.symm⟩
      · rcases ih n hn with ⟨pd', hpd', he⟩
        exact ⟨pd', List.mem_cons_of_mem _ hpd', he⟩ }

theorem probeLoop_no_match (env : String → ProbeResult) (l : List ProbeDef)
    (h : ∀ pd ∈ l, env pd.2 ≠ ProbeResult.certain ∧ env pd.2 ≠ ProbeResult.reverse) :
    probeLoop env l =
      (none, l.filter (fun pd => env pd.2 == ProbeResult.unsure), l.map (·.2)) := by
  induction l with
  | nil => simp [probeLoop]
  | cons pd rest ih =>
    have hpd := h pd (List.mem_cons_self _ _)
    have hrest := ih (fun q hq => h q (List.mem_cons_of_mem _ hq))
    unfold probeLoop
    cases henv : env pd.2 <;> simp_all [List.filter_cons]

/-- State characterization of `probe`: a match drops the candidate list; no
match either bypasses the flow (dropping the candidate list) or stores a
candidate list; the table, builder names, and parsers are untouched. -/
theorem probe_state_eq (st : RState) (env : String → ProbeResult) (fid l4p : Nat) :
    ((probe st env fid l4p).1.isSome →
      (probe st env fid l4p).2.1 =
        { st with flow_probes := mapRemove st.flow_probes fid }) ∧
    ((probe st env fid l4p).1 = none →
      (probe st env fid l4p).2.1 =
        { st with flow_probes := mapRemove st.flow_probes fid
                  flow_bypass := setInsert st.flow_bypass fid } ∨
      ∃ l, (probe st env fid l4p).2.1 =
        { st with flow_probes := mapInsert st.flow_probes fid l }) := by
  unfold probe
  rcases h : probeLoop env (invokableProbes st fid l4p) with ⟨r, u, i⟩
  cases r with
  | some n => simp
  | none =>
    cases u with
    | nil => simp
    | cons a l =>
      refine ⟨by simp, fun _ => Or.inr ⟨a :: l, ?_⟩⟩
      simp [List.isEmpty]

/-- The invoked-probe names reported by `probe` are those of its iteration,
whatever the outcome. -/
theorem probe_invoked_eq (st : RState) (env : String → ProbeResult) (fid l4p : Nat) :
    (probe st env fid l4p).2.2 = (probeLoop env (invokableProbes st fid l4p)).2.2 := by
  unfold probe
  rcases h : probeLoop env (invokableProbes st fid l4p) with ⟨r, u, i⟩
  cases r with
  | some n => rfl
  | none =>
    cases u with
    | nil => rfl
    | cons a l => simp [List.isEmpty]

/-! ### Shape analysis of `handle_layer_transport` -/

/-- Every `handle_layer_transport` call either leaves the state unchanged or
rewrites the per-flow maps at exactly the packet's flow ID, in one of the
five ways the source allows: detach a failed parser; bind a parser (dropping
the candidate list); bind then detach on immediate failure; bypass the flow;
store a candidate list. -/
theorem handle_shapes (st : RState) (env : Env) (pinfo : PInfo) :
    (handle_layer_transport st env pinfo).1 = st ∨
    ∃ fid, pinfo.flow = some fid ∧ st.flow_bypass fid = false ∧
      (((st.flow_parsers fid).isSome ∧
        (handle_layer_transport st env pinfo).1 =
          { st with flow_parsers := mapRemove st.flow_parsers fid }) ∨
       (st.flow_parsers fid = none ∧
        ((∃ pname,
           (handle_layer_transport st env pinfo).1 =
             { st with flow_probes := mapRemove st.flow_probes fid
                       flow_parsers := mapInsert st.flow_parsers fid pname } ∨
           (handle_layer_transport st env pinfo).1 =
             { st with flow_probes := mapRemove st.flow_probes fid
                       flow_parsers :=
                         mapRemove (mapInsert st.flow_parsers fid pname) fid }) ∨
         (handle_layer_transport st env pinfo).1 =
           { st with flow_probes := mapRemove st.flow_probes fid
                     flow_bypass := setInsert st.flow_bypass fid } ∨
         (∃ l, (handle_layer_transport st env pinfo).1 =
           { st with flow_probes := mapInsert st.flow_probes fid l })))) := by
  unfold handle_layer_transport
  cases hf : pinfo.flow with
  | none => exact Or.inl rfl
  | some fid =>
    by_cases hb : st.flow_bypass fid
    · simp [hb]
    · simp only [hb, Bool.false_eq_true, if_false]
      cases hp : pinfo.l4_payload with
      | none => exact Or.inl rfl
      | some d =>
        by_cases hd : d.isEmpty
        · simp [hd]
        · simp only [hd, Bool.false_eq_true, if_false]
          have hb' : st.flow_bypass fid = false := by simpa using hb
          cases hpar : st.flow_parsers fid with
          | some pname =>
            by_cases hfail : env.parseRes pname = ParseStatus.fail
            · exact Or.inr ⟨fid, rfl, hb',
                Or.inl ⟨by simp [hpar], by simp [hfail]⟩⟩
            · exact Or.inl (by simp [hfail])
          | none =>
            rcases hprobe : probe st env.probeRes fid pinfo.l4_type with ⟨r, st1, invoked⟩
            have hchar := probe_state_eq st env.probeRes fid pinfo.l4_type
            rw [hprobe] at hchar
            cases r with
            | some pname =>
              have hst1 : st1 = { st with flow_probes := mapRemove st.flow_probes fid } :=
                hchar.1 (by simp)
              subst hst1
              by_cases hmem : pname ∈ st.builder_names
              · by_cases hfail : env.parseRes pname = ParseStatus.fail
                · exact Or.inr ⟨fid, rfl, hb', Or.inr ⟨hpar,
                    Or.inl ⟨pname, Or.inr (by simp [hmem, hfail])⟩⟩⟩
                · exact Or.inr ⟨fid, rfl, hb', Or.inr ⟨hpar,
                    Or.inl ⟨pname, Or.inl (by simp [hmem, hfail])⟩⟩⟩
              · exact Or.inr ⟨fid, rfl, hb', Or.inr ⟨hpar,
                  Or.inr (Or.inl (by simp [hmem]))⟩⟩
            | none =>
              have hcases : st1 =
                  { st with flow_probes := mapRemove st.flow_probes fid
                            flow_bypass := setInsert st.flow_bypass fid } ∨
                  ∃ l, st1 = { st with flow_probes := mapInsert st.flow_probes fid l } :=
                hchar.2 rfl
              rcases hcases with hst1 | ⟨l, hst1⟩
              · exact Or.inr ⟨fid, rfl, hb',
                  Or.inr ⟨hpar, Or.inr (Or.inl (by simp [hst1]))⟩⟩
              · exact Or.inr ⟨fid, rfl, hb',
                  Or.inr ⟨hpar, Or.inr (Or.inr ⟨l, by simp [hst1]⟩)⟩⟩

/-! ### Invariant preservation -/

theorem handle_preserves_disjoint (st : RState) (env : Env) (pinfo : PInfo)
    (h : DisjointViews st) : DisjointViews (handle_layer_transport st env pinfo).1 := by
  rcases handle_shapes st env pinfo with heq | ⟨fid, _, hb, hcase⟩
  · rwa [heq]
  rcases hcase with ⟨hpar, heq⟩ | ⟨hpar, (⟨pname, heq | heq⟩ | heq | ⟨l, heq⟩)⟩ <;>
    rw [heq] <;> intro g <;> by_cases hg : g = fid
  -- detach failed parser, g = fid
  · subst hg
    exact ⟨fun hx => by simp at hx, fun hx => (h g).2 hx⟩
  -- detach failed parser, g ≠ fid
  · exact ⟨fun hx => (h g).1 (by simpa only [mapRemove_other _ _ _ hg] using hx),
      fun hx => (h g).2 hx⟩
  -- bind parser, g = fid
  · subst hg
    exact ⟨fun _ => ⟨by simp, hb⟩, fun hx => by simp at hx⟩
  -- bind parser, g ≠ fid
  · refine ⟨fun hx => ?_, fun hx => ?_⟩
    · simp only [mapInsert_other _ _ _ _ hg] at hx
      simp only [mapRemove_other _ _ _ hg]
      exact (h g).1 hx
    · simp only [mapRemove_other _ _ _ hg] at hx
      exact (h g).2 hx
  -- bind then detach on failure, g = fid
  · subst hg
    exact ⟨fun hx => by simp at hx, fun hx => by simp at hx⟩
  -- bind then detach on failure, g ≠ fid
  · refine ⟨fun hx => ?_, fun hx => ?_⟩
    · simp only [mapRemove_other _ _ _ hg, mapInsert_other _ _ _ _ hg] at hx
      simp only [mapRemove_other _ _ _ hg]
      exact (h g).1 hx
    · simp only [mapRemove_other _ _ _ hg] at hx
      exact (h g).2 hx
  -- bypass the flow, g = fid
  · subst hg
    exact ⟨fun hx => by rw [hpar] at hx; simp at hx, fun hx => by simp at hx⟩
  -- bypass the flow, g ≠ fid
  · refine ⟨fun hx => ?_, fun hx => ?_⟩
    · simp only [mapRemove_other _ _ _ hg, setInsert_other _ _ _ hg]
      exact (h g).1 hx
    · simp only [mapRemove_other _ _ _ hg] at hx
      simp only [setInsert_other _ _ _ hg]
      exact (h g).2 hx
  -- store a candidate list, g = fid
  · subst hg
    exact ⟨fun hx => by rw [hpar] at hx; simp at hx, fun _ => hb⟩
  -- store a candidate list, g ≠ fid
  · refine ⟨fun hx => ?_, fun hx => ?_⟩
    · simp only [mapInsert_other _ _ _ _ hg]
      exact (h g).1 hx
    · simp only [mapInsert_other _ _ _ _ hg] at hx
      exact (h g).2 hx

theorem destroy_preserves_disjoint (st : RState) (fid : Nat)
    (h : DisjointViews st) : DisjointViews (flow_destroyed st fid) := by
  intro g
  by_cases hg : g = fid
  · subst hg
    exact ⟨fun _ => ⟨by simp [flow_destroyed], by simp [flow_destroyed]⟩,
      fun hx => by simp [flow_destroyed] at hx⟩
  · refine ⟨fun hx => ?_, fun hx => ?_⟩
    · refine ⟨?_, ?_⟩
      · show mapRemove st.flow_probes fid g = none
        rw [mapRemove_other _ _ _ hg]
        exact ((h g).1 hx).1
      · show setRemove st.flow_bypass fid g = false
        rw [setRemove_other _ _ _ hg]
        exact ((h g).1 hx).2
    · replace hx : (st.flow_probes g).isSome := by
        rwa [show (flow_destroyed st fid).flow_probes g = st.flow_probes g from
          mapRemove_other _ _ _ hg] at hx
      show setRemove st.flow_bypass fid g = false
      rw [setRemove_other _ _ _ hg]
      exact (h g).2 hx

/-- Any reachable plugin state has pairwise disjoint flow views. -/
theorem disjoint_of_reachable (tbl : List ProbeDef) (bn : List String) (s : RState)
    (h : Reachable tbl bn s) : DisjointViews s := by
  induction h with
  | init => intro fid; simp [initState]
  | handle s env pinfo _ ih => exact handle_preserves_disjoint _ _ _ ih
  | destroyed s fid _ ih => exact destroy_preserves_disjoint _ _ ih

/-- `handle_layer_transport` never removes a flow from `flow_bypass`. -/
theorem handle_bypass_mono (st : RState) (env : Env) (pinfo : PInfo) (fid : Nat)
    (hb : st.flow_bypass fid = true) :
    (handle_layer_transport st env pinfo).1.flow_bypass fid = true := by
  rcases handle_shapes st env pinfo with heq | ⟨g, _, hbg, hcase⟩
  · rw [heq]; exact hb
  · have hne : fid ≠ g := by rintro rfl; rw [hb] at hbg; cases hbg
    rcases hcase with ⟨_, heq⟩ | ⟨_, (⟨p, heq | heq⟩ | heq | ⟨l, heq⟩)⟩ <;>
      rw [heq] <;> simp [setInsert_other _ _ _ hne, hb]

/-- A packet of a bypassed flow is a complete no-op: state unchanged, no
probe invoked, no parser called (rusticata.rs lines 119-122). -/
theorem handle_bypassed_noop (st : RState) (env : Env) (pinfo : PInfo) (fid : Nat)
    (hf : pinfo.flow = some fid) (hb : st.flow_bypass fid = true) :
    handle_layer_transport st env pinfo = (st, PluginResult.None, emptyTrace) := by
  unfold handle_layer_transport
  rw [hf]
  simp [hb]

/-- In a state with disjoint views, a bypassed flow has no bound parser and
no candidate list. -/
theorem bypassed_entries_none (s : RState) (fid : Nat) (hd : DisjointViews s)
    (hb : s.flow_bypass fid = true) :
    s.flow_parsers fid = none ∧ s.flow_probes fid = none := by
  constructor
  · rcases hp : s.flow_parsers fid with _ | p
    · rfl
    · have hfalse := ((hd fid).1 (by rw [hp]; rfl)).2
      rw [hfalse] at hb; cases hb
  · rcases hp : s.flow_probes fid with _ | l
    · rfl
    · have hfalse := (hd fid).2 (by rw [hp]; rfl)
      rw [hfalse] at hb; cases hb

/-- Destroying a different flow does not remove `fid` from `flow_bypass`. -/
theorem destroy_bypass_other (s : RState) (g fid : Nat) (hg : g ≠ fid)
    (hb : s.flow_bypass fid = true) :
    (flow_destroyed s g).flow_bypass fid = true := by
  show setRemove s.flow_bypass g fid = true
  rw [setRemove_other _ _ _ (Ne.symm hg)]
  exact hb

/-- Characterization of the parser-failure branch of
`handle_layer_transport` (rusticata.rs lines 162-171): the parser is removed
and nothing else changes. -/
theorem handle_parse_fail_eq (st : RState) (env : Env) (pinfo : PInfo)
    (fid : Nat) (d : List Nat) (pname : String)
    (hflow : pinfo.flow = some fid) (hb : st.flow_bypass fid = false)
    (hpay : pinfo.l4_payload = some d) (hd : d ≠ [])
    (hpar : st.flow_parsers fid = some pname)
    (hfail : env.parseRes pname = ParseStatus.fail) :
    handle_layer_transport st env pinfo =
      ({ st with flow_parsers := mapRemove st.flow_parsers fid },
       PluginResult.None, ⟨false, [], some pname⟩) := by
  have hde : d.isEmpty = false := by
    cases d with
    | nil => exact absurd rfl hd
    | cons a l => rfl
  unfold handle_layer_transport
  rw [hflow, hpay]
  simp [hb, hde, hpar, hfail]

/-- When an unbypassed flow with no bound parser receives a non-empty
payload, the probe cascade runs. -/
theorem handle_probes_when_unbound (st : RState) (env : Env) (pinfo : PInfo)
    (fid : Nat) (d : List Nat) (hflow : pinfo.flow = some fid)
    (hb : st.flow_bypass fid = false) (hpay : pinfo.l4_payload = some d)
    (hd : d ≠ []) (hpar : st.flow_parsers fid = none) :
    (handle_layer_transport st env pinfo).2.2.probed = true := by
  have hde : d.isEmpty = false := by
    cases d with
    | nil => exact absurd rfl hd
    | cons a l => rfl
  unfold handle_layer_transport
  rw [hflow, hpay]
  simp only [hb, hde, hpar, Bool.false_eq_true, if_false]
  rcases hpr : probe st env.probeRes fid pinfo.l4_type with ⟨r, st1, inv⟩
  cases r with
  | some pname =>
    by_cases hmem : pname ∈ st1.builder_names
    · by_cases hfail : env.parseRes pname = ParseStatus.fail <;>
        simp [hmem, hfail]
    · simp [hmem]
  | none => rfl

/-! ## Claim theorems -/

/-- C2: at every moment — i.e. in every state reachable from the
post-`pre_process` state by `handle_layer_transport` and `flow_destroyed`
calls — a flow ID belongs to at most one of the three views `flow_parsers`,
`flow_probes` and `flow_bypass`: their key sets are pairwise disjoint. -/
theorem flow_views_pairwise_disjoint (tbl : List ProbeDef) (bn : List String)
    (s : RState) (h : Reachable tbl bn s) : DisjointViews s :=
  disjoint_of_reachable tbl bn s h

theorem flow_views_pairwise_disjoint_witness :
    DisjointViews (handle_layer_transport
      (initState rusticataProbesFull rusticataBuilderNames)
      ⟨fun _ => ProbeResult.certain, fun _ => ParseStatus.ok⟩
      ⟨some 1, some [1], 6, true⟩).1 :=
  flow_views_pairwise_disjoint _ _ _ (Reachable.handle _ _ _ Reachable.init)

/-- C3: bypass is terminal within a flow's lifetime. If a reachable state
has flow `fid` bypassed, then after any further sequence of steps that does
not destroy `fid`, the flow is still bypassed, is in neither `flow_parsers`
nor `flow_probes`, and a packet of that flow is a complete no-op: state
unchanged, no probe invoked, no parser called. -/
theorem bypass_terminal (tbl : List ProbeDef) (bn : List String) (fid : Nat)
    (s s' : RState) (hr : Reachable tbl bn s) (hb : s.flow_bypass fid = true)
    (hsteps : Relation.ReflTransGen (StepAvoiding fid) s s') :
    s'.flow_bypass fid = true ∧ s'.flow_parsers fid = none ∧
      s'.flow_probes fid = none ∧
      ∀ env pinfo, pinfo.flow = some fid →
        handle_layer_transport s' env pinfo = (s', PluginResult.None, emptyTrace) := by
  have key : DisjointViews s' ∧ s'.flow_bypass fid = true := by
    induction hsteps with
    | refl => exact ⟨disjoint_of_reachable tbl bn s hr, hb⟩
    | tail hstar hstep ih =>
      rcases ih with ⟨hdisj, hbyp⟩
      cases hstep with
      | handle env pinfo =>
        exact ⟨handle_preserves_disjoint _ _ _ hdisj,
          handle_bypass_mono _ _ _ _ hbyp⟩
      | destroyed g hg =>
        exact ⟨destroy_preserves_disjoint _ _ hdisj,
          destroy_bypass_other _ _ _ hg hbyp⟩
  rcases key with ⟨hdisj, hbyp⟩
  rcases bypassed_entries_none s' fid hdisj hbyp with ⟨hp, hq⟩
  exact ⟨hbyp, hp, hq, fun env pinfo hf => handle_bypassed_noop _ _ _ _ hf hbyp⟩

theorem bypass_terminal_witness :
    bypassedStateExample.flow_bypass 1 = true ∧
      bypassedStateExample.flow_parsers 1 = none ∧
      bypassedStateExample.flow_probes 1 = none ∧
      ∀ env pinfo, pinfo.flow = some 1 →
        handle_layer_transport bypassedStateExample env pinfo =
          (bypassedStateExample, PluginResult.None, emptyTrace) :=
  bypass_terminal [] [] 1 _ _ (Reachable.handle _ _ _ Reachable.init)
    (by decide) Relation.ReflTransGen.refl

/-- C4 counterexample: after binding parser `tls` to flow 1 and then calling
`flow_destroyed` for flow 1, `flow_parsers` still contains the entry — the
claim that flow destruction drops the bound parser is false:
`Rusticata::flow_destroyed` removes only `flow_probes` and `flow_bypass`
entries (rusticata.rs lines 176-179). -/
theorem flow_destroyed_keeps_parser_counterexample :
    boundStateExample.flow_parsers 1 = some "tls" ∧
    (flow_destroyed boundStateExample 1).flow_parsers 1 = some "tls" :=
  ⟨by decide, by decide⟩

/-- C4 (amended): `flow_destroyed` removes the flow ID from `flow_probes`
and `flow_bypass`, leaves `flow_parsers` entirely unchanged, and leaves the
other flows' candidate-list and bypass entries unchanged. -/
theorem flow_destroyed_removes_probes_and_bypass (st : RState) (fid : Nat) :
    (flow_destroyed st fid).flow_probes fid = none ∧
    (flow_destroyed st fid).flow_bypass fid = false ∧
    (flow_destroyed st fid).flow_parsers = st.flow_parsers ∧
    ∀ g, g ≠ fid →
      (flow_destroyed st fid).flow_probes g = st.flow_probes g ∧
      (flow_destroyed st fid).flow_bypass g = st.flow_bypass g := by
  refine ⟨by simp [flow_destroyed], by simp [flow_destroyed], rfl, fun g hg => ?_⟩
  constructor
  · show mapRemove st.flow_probes fid g = st.flow_probes g
    exact mapRemove_other _ _ _ hg
  · show setRemove st.flow_bypass fid g = st.flow_bypass g
    exact setRemove_other _ _ _ hg

theorem flow_destroyed_removes_probes_and_bypass_witness :
    (flow_destroyed bypassedStateExample 1).flow_probes 1 = none ∧
    (flow_destroyed bypassedStateExample 1).flow_bypass 1 = false ∧
    (flow_destroyed bypassedStateExample 1).flow_parsers =
      bypassedStateExample.flow_parsers ∧
    ((flow_destroyed bypassedStateExample 1).flow_probes 2 =
        bypassedStateExample.flow_probes 2 ∧
      (flow_destroyed bypassedStateExample 1).flow_bypass 2 =
        bypassedStateExample.flow_bypass 2) :=
  ⟨(flow_destroyed_removes_probes_and_bypass bypassedStateExample 1).1,
   (flow_destroyed_removes_probes_and_bypass bypassedStateExample 1).2.1,
   (flow_destroyed_removes_probes_and_bypass bypassedStateExample 1).2.2.1,
   (flow_destroyed_removes_probes_and_bypass bypassedStateExample 1).2.2.2 2
     (by decide)⟩

/-- C10: a packet with no flow, or one whose layer-4 payload is absent or
empty, is a complete no-op: `handle_layer_transport` returns
`PluginResult::None`, the three flow views are exactly unchanged, no probe
is invoked, no parser is built, and no bound parser's `parse` is called. -/
theorem no_flow_or_empty_payload_noop (st : RState) (env : Env) (pinfo : PInfo)
    (h : pinfo.flow = none ∨ pinfo.l4_payload = none ∨ pinfo.l4_payload = some []) :
    handle_layer_transport st env pinfo = (st, PluginResult.None, emptyTrace) := by
  unfold handle_layer_transport
  rcases h with h | h | h
  · rw [h]
  · rw [h]
    cases hf : pinfo.flow with
    | none => rfl
    | some fid =>
      by_cases hb : st.flow_bypass fid <;> simp [hb]
  · rw [h]
    cases hf : pinfo.flow with
    | none => rfl
    | some fid =>
      by_cases hb : st.flow_bypass fid <;> simp [hb]

theorem no_flow_or_empty_payload_noop_witness :
    handle_layer_transport boundStateExample envParseFail ⟨some 1, some [], 6, true⟩ =
      (boundStateExample, PluginResult.None, emptyTrace) :=
  no_flow_or_empty_payload_noop boundStateExample envParseFail _
    (Or.inr (Or.inr rfl))

/-- C8: when the bound parser's `parse` returns `R_STATUS_FAIL`, the parser
is removed from `flow_parsers` for that flow, other flows' parsers are
untouched, `flow_probes` and `flow_bypass` are exactly unchanged (in
particular the flow is NOT bypassed), the call returns `PluginResult::None`
with no probe invoked, and the next non-empty payload of that flow goes
through probing again. -/
theorem parse_fail_detaches (st : RState) (env : Env) (pinfo : PInfo)
    (fid : Nat) (d : List Nat) (pname : String)
    (hflow : pinfo.flow = some fid) (hb : st.flow_bypass fid = false)
    (hpay : pinfo.l4_payload = some d) (hd : d ≠ [])
    (hpar : st.flow_parsers fid = some pname)
    (hfail : env.parseRes pname = ParseStatus.fail) :
    (handle_layer_transport st env pinfo).1.flow_parsers fid = none ∧
    (∀ g, g ≠ fid → (handle_layer_transport st env pinfo).1.flow_parsers g =
      st.flow_parsers g) ∧
    (handle_layer_transport st env pinfo).1.flow_probes = st.flow_probes ∧
    (handle_layer_transport st env pinfo).1.flow_bypass = st.flow_bypass ∧
    (handle_layer_transport st env pinfo).2.1 = PluginResult.None ∧
    (handle_layer_transport st env pinfo).2.2 = ⟨false, [], some pname⟩ ∧
    ∀ env2 pinfo2 d2, pinfo2.flow = some fid → pinfo2.l4_payload = some d2 →
      d2 ≠ [] →
      (handle_layer_transport (handle_layer_transport st env pinfo).1
        env2 pinfo2).2.2.probed = true := by
  have heq := handle_parse_fail_eq st env pinfo fid d pname hflow hb hpay hd hpar hfail
  rw [heq]
  refine ⟨by simp, fun g hg => mapRemove_other _ _ _ hg, rfl, rfl, rfl, rfl,
    fun env2 pinfo2 d2 hf2 hp2 hd2 => ?_⟩
  exact handle_probes_when_unbound _ env2 pinfo2 fid d2 hf2 hb hp2 hd2 (by simp)

theorem parse_fail_detaches_witness :
    (handle_layer_transport boundStateExample envParseFail pinfoFlow1).1.flow_parsers 1 =
      none ∧
    ((handle_layer_transport boundStateExample envParseFail pinfoFlow1).1.flow_parsers 2 =
      boundStateExample.flow_parsers 2) ∧
    (handle_layer_transport boundStateExample envParseFail pinfoFlow1).1.flow_probes =
      boundStateExample.flow_probes ∧
    (handle_layer_transport boundStateExample envParseFail pinfoFlow1).1.flow_bypass =
      boundStateExample.flow_bypass ∧
    (handle_layer_transport boundStateExample envParseFail pinfoFlow1).2.1 =
      PluginResult.None ∧
    (handle_layer_transport boundStateExample envParseFail pinfoFlow1).2.2 =
      ⟨false, [], some "tls"⟩ ∧
    (handle_layer_transport
      (handle_layer_transport boundStateExample envParseFail pinfoFlow1).1
      envParseFail pinfoFlow1).2.2.probed = true := by
  have h := parse_fail_detaches boundStateExample envParseFail pinfoFlow1
    1 [1] "tls" rfl (by decide) rfl (by decide) (by decide) rfl
  exact ⟨h.1, h.2.1 2 (by decide), h.2.2.1, h.2.2.2.1, h.2.2.2.2.1, h.2.2.2.2.2.1,
    h.2.2.2.2.2.2 envParseFail pinfoFlow1 [1] rfl rfl (by decide)⟩

/-- C7: when no invoked probe answers `Certain` or `Reverse`, `probe`
returns `none`; if at least one invoked probe answered `Unsure`, the flow's
candidate list is set to exactly the unsure probes in iteration order and
the flow is not bypassed; if none did, the flow is removed from
`flow_probes` and added to `flow_bypass`. -/
theorem probe_no_match_outcome (st : RState) (env : String → ProbeResult)
    (fid l4p : Nat)
    (h : ∀ pd ∈ invokableProbes st fid l4p,
      env pd.2 ≠ ProbeResult.certain ∧ env pd.2 ≠ ProbeResult.reverse) :
    (probe st env fid l4p).1 = none ∧
    ((invokableProbes st fid l4p).filter
        (fun pd => env pd.2 == ProbeResult.unsure) ≠ [] →
      (probe st env fid l4p).2.1.flow_probes =
        mapInsert st.flow_probes fid ((invokableProbes st fid l4p).filter
          (fun pd => env pd.2 == ProbeResult.unsure)) ∧
      (probe st env fid l4p).2.1.flow_bypass = st.flow_bypass) ∧
    ((invokableProbes st fid l4p).filter
        (fun pd => env pd.2 == ProbeResult.unsure) = [] →
      (probe st env fid l4p).2.1.flow_probes = mapRemove st.flow_probes fid ∧
      (probe st env fid l4p).2.1.flow_bypass = setInsert st.flow_bypass fid) := by
  have hloop := probeLoop_no_match env _ h
  unfold probe
  rw [hloop]
  rcases hcase : (invokableProbes st fid l4p).filter
      (fun pd => env pd.2 == ProbeResult.unsure) with _ | ⟨a, l⟩
  · rw [hcase]
    exact ⟨rfl, fun hne => absurd rfl hne, fun _ => ⟨rfl, rfl⟩⟩
  · rw [hcase]
    exact ⟨rfl, fun _ => ⟨rfl, rfl⟩, fun hnil => by cases hnil⟩

theorem probe_no_match_outcome_witness :
    (probe probeWitnessState probeWitnessEnv 1 17).1 = none ∧
    ((invokableProbes probeWitnessState 1 17).filter
        (fun pd => probeWitnessEnv pd.2 == ProbeResult.unsure) ≠ [] →
      (probe probeWitnessState probeWitnessEnv 1 17).2.1.flow_probes =
        mapInsert probeWitnessState.flow_probes 1
          ((invokableProbes probeWitnessState 1 17).filter
            (fun pd => probeWitnessEnv pd.2 == ProbeResult.unsure)) ∧
      (probe probeWitnessState probeWitnessEnv 1 17).2.1.flow_bypass =
        probeWitnessState.flow_bypass) ∧
    ((invokableProbes probeWitnessState 1 17).filter
        (fun pd => probeWitnessEnv pd.2 == ProbeResult.unsure) = [] →
      (probe probeWitnessState probeWitnessEnv 1 17).2.1.flow_probes =
        mapRemove probeWitnessState.flow_probes 1 ∧
      (probe probeWitnessState probeWitnessEnv 1 17).2.1.flow_bypass =
        setInsert probeWitnessState.flow_bypass 1) :=
  probe_no_match_outcome probeWitnessState probeWitnessEnv 1 17 (by decide)

/-- C1 counterexample: for a packet with `l4_proto = 1` (ICMP) the UDP probe
`dhcp` (filter `0x11000000`) IS invoked although the filter's high byte
`0x11` differs from the protocol: the invocation test in the source is
`filter & (l4_proto << 24) != 0` (rusticata.rs line 201), not high-byte
equality. -/
theorem probe_transport_filter_counterexample :
    "dhcp" ∈ (probe (initState rusticataProbesFull rusticataBuilderNames)
      (fun _ => ProbeResult.notForUs) 1 1).2.2 ∧
    ((0x11000000 : Nat), "dhcp") ∈
      selectedProbes (initState rusticataProbesFull rusticataBuilderNames) 1 ∧
    ¬ ((0x11000000 : Nat) >>> 24 = 1) :=
  ⟨by decide, by decide, by decide⟩

/-- C1 (amended): every probe invoked comes from the selected list and
satisfies `filter & (l4_proto << 24) ≠ 0`; when no invoked probe answers
`Certain`/`Reverse` the invoked probes are exactly the selected probes
satisfying that test, in order; and on the startup table, for
`l4_proto ∈ {6 (TCP), 17 (UDP)}`, that test coincides with high-byte
equality `(filter >> 24) = l4_proto`. -/
theorem probe_invoked_transport (st : RState) (env : String → ProbeResult)
    (fid l4p : Nat) :
    (∀ n ∈ (probe st env fid l4p).2.2, ∃ pd ∈ selectedProbes st fid,
      pd.2 = n ∧ (pd.1 &&& transportFilter l4p) ≠ 0) ∧
    ((∀ pd ∈ invokableProbes st fid l4p,
        env pd.2 ≠ ProbeResult.certain ∧ env pd.2 ≠ ProbeResult.reverse) →
      (probe st env fid l4p).2.2 = (invokableProbes st fid l4p).map (·.2)) ∧
    (∀ pd ∈ rusticataProbesFull, ∀ l4q, l4q = 6 ∨ l4q = 17 →
      ((pd.1 &&& transportFilter l4q) ≠ 0 ↔ pd.1 >>> 24 = l4q)) := by
  refine ⟨?_, ?_, ?_⟩
  · intro n hn
    rw [probe_invoked_eq] at hn
    rcases probeLoop_invoked_mem env _ n hn with ⟨pd, hpd, hname⟩
    rcases List.mem_filter.mp hpd with ⟨hmem, hfilt⟩
    exact ⟨pd, hmem, hname, by simpa using hfilt⟩
  · intro hnc
    rw [probe_invoked_eq, probeLoop_no_match env _ hnc]
  · intro pd hpd l4q hl
    rcases hl with rfl | rfl
    · exact (by decide : ∀ pd ∈ rusticataProbesFull,
        ((pd.1 &&& transportFilter 6) ≠ 0 ↔ pd.1 >>> 24 = 6)) pd hpd
    · exact (by decide : ∀ pd ∈ rusticataProbesFull,
        ((pd.1 &&& transportFilter 17) ≠ 0 ↔ pd.1 >>> 24 = 17)) pd hpd

theorem probe_invoked_transport_witness :
    (∃ pd ∈ selectedProbes (initState rusticataProbesFull rusticataBuilderNames) 1,
      pd.2 = "dhcp" ∧ (pd.1 &&& transportFilter 1) ≠ 0) ∧
    (probe (initState rusticataProbesFull rusticataBuilderNames)
        (fun _ => ProbeResult.notForUs) 1 17).2.2 =
      (invokableProbes (initState rusticataProbesFull rusticataBuilderNames) 1 17).map
        (·.2) ∧
    (((0x06000000 : Nat) &&& transportFilter 6) ≠ 0 ↔
      (0x06000000 : Nat) >>> 24 = 6) :=
  ⟨(probe_invoked_transport (initState rusticataProbesFull rusticataBuilderNames)
      (fun _ => ProbeResult.notForUs) 1 1).1 "dhcp" (by decide),
   (probe_invoked_transport (initState rusticataProbesFull rusticataBuilderNames)
      (fun _ => ProbeResult.notForUs) 1 17).2.1 (by decide),
   (probe_invoked_transport (initState rusticataProbesFull rusticataBuilderNames)
      (fun _ => ProbeResult.notForUs) 1 6).2.2 (0x06000000, "dns_tcp") (by decide) 6
     (Or.inl rfl)⟩

/-- C9: the startup table's entry for `openvpn_tcp`. Line 85 of rusticata.rs
uses the `udp` arm of `add_parser!` for the TCP builder `OpenVPNTCPBuilder`
with ordinal `TcpProbeOrder::OpenVpn`, so the probe of the TCP parser
`openvpn_tcp` is registered with filter `0x11000004`, whose high byte is
`0x11` (UDP) rather than `0x06` — contradicting the documented encoding (it
also collides with `kerberos_udp`'s filter `0x11000004`). -/
theorem openvpn_tcp_registered_under_udp_filter :
    builderTransportOf "openvpn_tcp" = some Transport.tcp ∧
    ((0x11000004 : Nat), "openvpn_tcp") ∈ rusticataProbesFull ∧
    (rusticataProbesFull.filter (fun p => p.2 == "openvpn_tcp")).map (·.1) =
      [0x11000004] ∧
    (0x11000004 : Nat) >>> 24 = 0x11 ∧ PROBE_TCP >>> 24 = 6 :=
  ⟨by decide, by decide, by decide, by decide, by decide⟩

/-- C5: a well-formed simple-packet block violates `caplen ≤ origlen`: with
interface snaplen 65535 and original length 10 the emitted packet has
`caplen = 65535 > 10 = origlen`, because the simple-packet branch of
`handle_block` sets `caplen` to the interface snaplen (data_engine.rs line
142) rather than `min(origlen, snaplen)`. -/
theorem simple_packet_caplen_exceeds_origlen :
    (∃ c, handle_block ⟨[⟨1, 0, 6, 65535⟩], false, 0, ⟨0, 0⟩, ⟨0, 0⟩⟩
        (PcapBlock.simplePacket 26 10 true) 1 =
      Except.ok (c, some ⟨0, 0, 0, 10, 65535, 1⟩)) ∧ 10 < 65535 :=
  ⟨⟨_, rfl⟩, by decide⟩

/-- C6 counterexample: the claim that the microsecond conversion is total is
false: for a resolution of 1000 ticks per second (millisecond resolution,
`if_tsresol = 3`) the code divides `ts_frac` by `unit / 1e6 = 0`, a Rust
panic. -/
theorem normalize_ts_usec_panics_on_coarse_resolution :
    normalize_ts_usec 500 1000 = none := by decide

/-- C6 (amended): the emitted fractional-microseconds field equals `ts_frac`
when the unit is exactly `1e6` and `ts_frac / (unit / 1e6)` when
`1e6 < unit < 2^32`; but the conversion is NOT total: whenever
`unit % 2^32 < 1e6` (coarse resolutions, or base-2 resolutions of 32 bits
and more after the lossy `u64 → u32` cast) it divides by zero. -/
theorem normalize_ts_usec_spec (ts_frac unit : Nat) :
    (unit = MICROS_PER_SEC → normalize_ts_usec ts_frac unit = some ts_frac) ∧
    (MICROS_PER_SEC < unit → unit < 2 ^ 32 →
      normalize_ts_usec ts_frac unit = some (ts_frac / (unit / MICROS_PER_SEC))) ∧
    (unit % 2 ^ 32 < MICROS_PER_SEC → normalize_ts_usec ts_frac unit = none) := by
  refine ⟨fun h => ?_, fun h1 h2 => ?_, fun h => ?_⟩
  · subst h
    have hm : MICROS_PER_SEC % 2 ^ 32 = MICROS_PER_SEC :=
      Nat.mod_eq_of_lt (by decide)
    unfold normalize_ts_usec
    rw [hm]
    simp
  · have hm : unit % 2 ^ 32 = unit := Nat.mod_eq_of_lt h2
    have hne : unit ≠ MICROS_PER_SEC := Nat.ne_of_gt h1
    have hdz : unit / MICROS_PER_SEC ≠ 0 :=
      Nat.pos_iff_ne_zero.mp (Nat.div_pos (le_of_lt h1) (by decide))
    unfold normalize_ts_usec
    rw [hm]
    simp [hne, hdz]
  · unfold normalize_ts_usec
    have h0 : unit % 2 ^ 32 / MICROS_PER_SEC = 0 := Nat.div_eq_of_lt h
    by_cases he : unit % 2 ^ 32 = MICROS_PER_SEC
    · rw [he] at h
      exact absurd h (by decide)
    · simp only [show (2 : Nat) ^ 32 = 4294967296 from by norm_num] at he h0
      simp [he, h0]

theorem normalize_ts_usec_spec_witness :
    normalize_ts_usec 7 1000000 = some 7 ∧
    normalize_ts_usec 9 3000000 = some 3 ∧
    normalize_ts_usec 0 1 = none :=
  ⟨(normalize_ts_usec_spec 7 1000000).1 rfl,
   (normalize_ts_usec_spec 9 3000000).2.1 (by decide) (by decide),
   (normalize_ts_usec_spec 0 1).2.2 (by decide)⟩

end PcapAnalyzer
